import Mathlib

/-!
# Verification of the generation-session state machine of `frontend/app.js`

This file gives a shallow embedding of the client-side session controller of the
AI code-generator frontend (`frontend/app.js`): the fields of the
`CodeGeneratorApp` object that the session state machine reads and writes, the
WebSocket message handler, start/stop/new-generation operations, the
localStorage snapshot save/restore pair, and the connection health checker.
Network requests are modelled by passing the response as an explicit argument;
side effects (localStorage writes, fetches, toasts, channel opens/closes) are
returned as an explicit effect list.
-/

/-- JS whitespace characters, as trimmed by `String.prototype.trim`. -/
def isJsWhitespace (c : Char) : Bool :=
  c == ' ' || c == '\t' || c == '\n' || c == '\r' || c == '\u000B' || c == '\u000C' ||
  c == '\u00A0' || c == '\u1680' || c == '\u2000' || c == '\u2001' || c == '\u2002' ||
  c == '\u2003' || c == '\u2004' || c == '\u2005' || c == '\u2006' || c == '\u2007' ||
  c == '\u2008' || c == '\u2009' || c == '\u200A' || c == '\u2028' || c == '\u2029' ||
  c == '\u202F' || c == '\u205F' || c == '\u3000' || c == '\uFEFF'

/-- JS `s.trim()`: strip whitespace from both ends. -/
def jsTrim (s : String) : String :=
  String.mk (((s.data.dropWhile isJsWhitespace).reverse.dropWhile isJsWhitespace).reverse)

/-- JS `s.endsWith(p)`. -/
def jsEndsWith (s p : String) : Bool :=
  p.data.isSuffixOf s.data

/-- JS truthiness of an optional string (`null`/`undefined`/`""` are falsy). -/
def optTruthy : Option String → Bool
  | some s => s != ""
  | none => false

/-- `WebSocket.readyState` values. -/
inductive ReadyState where
  | connecting
  | opened
  | closing
  | closed
deriving DecidableEq, Repr

/-- The `this.ws` object: a WebSocket scoped to one generation id. -/
structure WsConn where
  genId : String
  readyState : ReadyState
deriving DecidableEq, Repr

/-- A generation record as exchanged with the backend (`/history/{id}` response,
the object handed to `displayGeneration` / `updateUIState`). -/
structure Generation where
  id : Option String := none
  status : String
  prompt : Option String := none
  output : Option String := none
  language : Option String := none
  filename : Option String := none
  error : Option String := none
deriving DecidableEq, Repr

/-- The session-relevant mutable fields of the `CodeGeneratorApp` object.
`statusText` is the footer text written by `updateStatus`; `uiGen` is the
generation object last passed to `updateUIState` (`none` when it was called
with no argument). -/
structure AppState where
  currentGenerationId : Option String
  isGenerating : Bool
  outputBuffer : String
  tokenCount : Nat
  statusText : String
  uiGen : Option Generation
  promptInput : String
  languageBadge : Option String
  filenameText : Option String
  ws : Option WsConn
deriving DecidableEq, Repr

/-- The session status currently reflected in the UI state. -/
def statusOf (st : AppState) : Option String :=
  st.uiGen.map Generation.status

/-- Observable side effects of the controller (localStorage writes, requests
issued, channel lifecycle, toasts). -/
inductive Effect where
  | saveState
  | clearState
  | openChannel (id : String)
  | closeChannel
  | requestStop (id : String) (output : String)
  | reportFailure (id : String) (error : String) (output : String)
  | createJob (prompt : String)
  | fetchHistory
  | toast (message : String) (kind : String)
deriving DecidableEq, Repr

/-- True iff the effect list opens a streaming channel. -/
def opensChannel (effs : List Effect) : Bool :=
  effs.any fun e => match e with
    | Effect.openChannel _ => true
    | _ => false

/-- `setGeneratingState(generating)` — the state field it writes
(the rest is button UI). -/
def setGeneratingState (st : AppState) (generating : Bool) : AppState :=
  { st with isGenerating := generating }

/-- `updateUIState(generation = null)` — records the generation object shown and
updates the prompt input (`generation.prompt` truthy sets it; `null` clears it). -/
def updateUIState (st : AppState) (g : Option Generation) : AppState :=
  match g with
  | none => { st with uiGen := none, promptInput := "" }
  | some gen =>
      { st with uiGen := some gen,
                promptInput := match gen.prompt with
                  | some p => if p != "" then p else st.promptInput
                  | none => st.promptInput }

/-- Events delivered over the WebSocket (`handleWebSocketMessage`'s `message.type`). -/
inductive WsMessage where
  | token (data : String)
  | progress (tokens : Nat)
  | status (s : String)
  | done (language filename : Option String)
  | error (message : String)
deriving DecidableEq, Repr

/-- `handleGenerationComplete(data)` (app.js 674-702). -/
def handleGenerationComplete (st : AppState) (language filename : Option String) :
    AppState × List Effect :=
  let st := setGeneratingState st false
  let st := { st with statusText := "Completed" }
  let st := if optTruthy language then { st with languageBadge := language } else st
  let st := if optTruthy filename then { st with filenameText := filename } else st
  let st := updateUIState st (some { status := "completed" })
  (st, [Effect.fetchHistory, Effect.saveState, Effect.toast "Generation completed" "success"])

/-- `handleGenerationError(message)` (app.js 704-710). -/
def handleGenerationError (st : AppState) (message : String) : AppState × List Effect :=
  let st := setGeneratingState st false
  let st := { st with statusText := "Failed" }
  let st := updateUIState st (some { status := "failed" })
  (st, [Effect.toast ("Generation failed: " ++ message) "error"])

/-- `handleWebSocketMessage(message)` (app.js 637-672). -/
def handleWebSocketMessage (st : AppState) (m : WsMessage) : AppState × List Effect :=
  match m with
  | WsMessage.token data =>
      let st := { st with outputBuffer := st.outputBuffer ++ data,
                          tokenCount := st.tokenCount + 1 }
      (st, if st.tokenCount % 10 = 0 then [Effect.saveState] else [])
  | WsMessage.progress tokens => ({ st with tokenCount := tokens }, [])
  | WsMessage.status s => ({ st with statusText := s }, [])
  | WsMessage.done language filename => handleGenerationComplete st language filename
  | WsMessage.error message => handleGenerationError st message

/-- Deliver a sequence of WebSocket messages in order, collecting effects. -/
def runMessages (st : AppState) : List WsMessage → AppState × List Effect
  | [] => (st, [])
  | m :: ms =>
      let r1 := handleWebSocketMessage st m
      let r2 := runMessages r1.1 ms
      (r2.1, r1.2 ++ r2.2)

/-- The closing-fence rule applied to the buffer in `stopGeneration`
(app.js 716-722): a non-empty buffer whose trimmed text does not end in
a fence gets `\n` and a closing fence appended to the trimmed text. -/
def fenceOutput (buf : String) : String :=
  if buf != "" && !(jsEndsWith (jsTrim buf) "```") then jsTrim buf ++ "\n```" else buf

/-- `stopGeneration()` (app.js 712-761). `threw` tells whether the stop
request rejected (network failure), which lands in the catch block. -/
def stopGeneration (st : AppState) (threw : Bool) : AppState × List Effect :=
  match st.currentGenerationId with
  | none => (st, [])
  | some id =>
      let currentOutput := fenceOutput st.outputBuffer
      if threw then
        (st, [Effect.requestStop id currentOutput,
              Effect.toast "Failed to stop generation" "error"])
      else
        let st := match st.ws with
          | some w => { st with ws := some { w with readyState := ReadyState.closing } }
          | none => st
        let st := setGeneratingState st false
        let st := { st with statusText := "Stopped" }
        let stoppedGen : Generation :=
          { status := "stopped", output := some currentOutput, prompt := some st.promptInput }
        let st := updateUIState st (some stoppedGen)
        (st, [Effect.requestStop id currentOutput, Effect.closeChannel,
              Effect.toast "Generation stopped" "info", Effect.fetchHistory, Effect.saveState])

/-- `getCurrentModel()` (app.js 1656-1658): localStorage value with a default
(`null` and `""` are falsy, so `||` yields the default for both). -/
def getCurrentModel (selectedModel : Option String) : String :=
  match selectedModel with
  | some m => if m != "" then m else "qwen2.5:14b"
  | none => "qwen2.5:14b"

/-- The model check of `startGeneration` (app.js 552): no usable model selected. -/
def modelInvalid (m : String) : Bool :=
  m == "" || m == "Select a model" || m == "No models available" ||
  m == "Error loading models"

/-- Which arm of `startGeneration` ran. -/
inductive StartOutcome where
  | validationEmptyPrompt
  | validationNoModel
  | startedRegenerate (id : String)
  | startedNew (id : String)
  | createFailed
deriving DecidableEq, Repr

/-- `startGeneration()` (app.js 543-604). `selectedModel` is the
`localStorage.selectedModel` entry; `createResp` is the id returned by
`POST /generate` (`none` when the request rejected, landing in the catch). -/
def startGeneration (st : AppState) (selectedModel : Option String)
    (createResp : Option String) : AppState × List Effect × StartOutcome :=
  if jsTrim st.promptInput = "" then
    (st, [Effect.toast "Please enter a prompt" "warning"], StartOutcome.validationEmptyPrompt)
  else if modelInvalid (getCurrentModel selectedModel) then
    (st, [Effect.toast "Please select a model before generating code" "error"],
     StartOutcome.validationNoModel)
  else
    let st1 := setGeneratingState st true
    match st1.currentGenerationId with
    | some id =>
        let st2 := { st1 with
          statusText := "Generating...",
          ws := some { genId := id, readyState := ReadyState.connecting },
          outputBuffer := "", tokenCount := 0 }
        (st2, [Effect.openChannel id], StartOutcome.startedRegenerate id)
    | none =>
        match createResp with
        | some newId =>
            let st2 := { st1 with
              statusText := "Generating...",
              currentGenerationId := some newId,
              ws := some { genId := newId, readyState := ReadyState.connecting },
              outputBuffer := "", tokenCount := 0 }
            (st2, [Effect.createJob (jsTrim st.promptInput), Effect.openChannel newId],
             StartOutcome.startedNew newId)
        | none =>
            let st2 := { setGeneratingState st1 false with statusText := "Ready" }
            (st2, [Effect.createJob (jsTrim st.promptInput),
                   Effect.toast "Failed to start generation" "error"],
             StartOutcome.createFailed)

/-- `displayGeneration(generation)` (app.js 475-541): adopt the record into the
UI state; a truthy, non-whitespace `output` replaces the local buffer. -/
def displayGeneration (st : AppState) (g : Generation) : AppState × List Effect :=
  let st1 := updateUIState { st with currentGenerationId := g.id } (some g)
  let st2 := { st1 with
    languageBadge :=
      if optTruthy g.language && ((g.language.getD "") != "unknown") then g.language else none,
    filenameText := if optTruthy g.filename then g.filename else none,
    outputBuffer :=
      if optTruthy g.output && (jsTrim (g.output.getD "") != "") then g.output.getD ""
      else st1.outputBuffer,
    statusText := "Loaded: " ++ g.status }
  (st2, [Effect.saveState])

/-- `startNewGeneration()` (app.js 859-884). -/
def startNewGeneration (st : AppState) : AppState × List Effect :=
  let st := { st with currentGenerationId := none, outputBuffer := "", tokenCount := 0 }
  let st := updateUIState { st with statusText := "Ready" } none
  (st, [Effect.clearState, Effect.toast "Ready for new generation" "info"])

/-- Result of fetching `/history/{id}`: a record, a 404, or any other
failure (non-ok status or a network rejection, both of which land in the
same catch block). -/
inductive HistoryResp where
  | found (g : Generation)
  | notFound
  | httpError
deriving DecidableEq, Repr

/-- `loadGeneration(id)` (app.js 441-473). -/
def loadGeneration (st : AppState) (id : String) (resp : HistoryResp) :
    AppState × List Effect :=
  match resp with
  | HistoryResp.found g =>
      let r := displayGeneration { st with currentGenerationId := some id } g
      (r.1, r.2 ++ [Effect.toast "Generation loaded" "success"])
  | HistoryResp.notFound =>
      let r := startNewGeneration st
      (r.1, Effect.clearState :: r.2)
  | HistoryResp.httpError =>
      let r := startNewGeneration st
      (r.1, [Effect.toast "Failed to load generation" "error", Effect.clearState] ++ r.2)

/-- The persisted snapshot layout of `saveLastGeneration` (app.js 1440-1450). -/
structure SavedState where
  generationId : Option String
  prompt : String
  outputBuffer : String
  tokenCount : Nat
  isGenerating : Bool
  timestamp : Nat
deriving DecidableEq, Repr

/-- `saveLastGeneration()` (app.js 1440-1450): the snapshot written to
`localStorage.appState`, stamped with the current wall-clock time. -/
def saveLastGeneration (st : AppState) (now : Nat) : SavedState :=
  { generationId := st.currentGenerationId, prompt := st.promptInput,
    outputBuffer := st.outputBuffer, tokenCount := st.tokenCount,
    isGenerating := st.isGenerating, timestamp := now }

/-- `restoreNewGenerationState(state)` (app.js 1481-1496). -/
def restoreNewGenerationState (st : AppState) (s : SavedState) : AppState × List Effect :=
  let st := { st with promptInput := s.prompt, outputBuffer := s.outputBuffer,
                      tokenCount := s.tokenCount }
  let st := updateUIState st none
  ({ st with statusText := "Ready" }, [])

/-- `restorePromptOnly(state)` (app.js 1498-1505). -/
def restorePromptOnly (st : AppState) (s : SavedState) : AppState × List Effect :=
  let st := { st with promptInput := s.prompt }
  let st := updateUIState st none
  ({ st with statusText := "Ready" }, [])

/-- `loadLastGeneration()` (app.js 1452-1479). `saved` is the parsed
`localStorage.appState` record (`none` when absent), `now` is `Date.now()` at
restore time, `resp` the `/history/{id}` response used when a generation id is
restored. -/
def loadLastGeneration (st : AppState) (saved : Option SavedState) (now : Nat)
    (resp : HistoryResp) : AppState × List Effect :=
  match saved with
  | none => (st, [])
  | some s =>
      let isRecent : Bool := decide (now - s.timestamp < 24 * 60 * 60 * 1000)
      if isRecent && optTruthy s.generationId then
        loadGeneration st (s.generationId.getD "") resp
      else if isRecent && (s.prompt != "") && (s.outputBuffer != "") then
        restoreNewGenerationState st s
      else if isRecent && (s.prompt != "") then
        restorePromptOnly st s
      else
        (st, [Effect.clearState])

/-- Result of the `POST /history/{id}/fail` request inside
`markGenerationAsFailed`: ok, a non-ok status, or a rejection (catch). -/
inductive ReqResult where
  | ok
  | notOk
  | threw
deriving DecidableEq, Repr

/-- `markGenerationAsFailed(errorMessage)` (app.js 2001-2044): guarded at entry
by `currentGenerationId` and `isGenerating`. -/
def markGenerationAsFailed (st : AppState) (errorMessage : String) (r : ReqResult) :
    AppState × List Effect :=
  match st.currentGenerationId, st.isGenerating with
  | some id, true =>
      match r with
      | ReqResult.ok =>
          let st1 := setGeneratingState st false
          let g : Generation :=
            { id := some id, status := "failed", error := some errorMessage,
              output := some st.outputBuffer, prompt := some st.promptInput }
          let r2 := displayGeneration st1 g
          (r2.1, Effect.reportFailure id errorMessage st.outputBuffer ::
                 r2.2 ++ [Effect.toast "Generation failed due to connection loss" "error"])
      | ReqResult.notOk =>
          (st, [Effect.reportFailure id errorMessage st.outputBuffer])
      | ReqResult.threw =>
          (setGeneratingState st false,
           [Effect.reportFailure id errorMessage st.outputBuffer,
            Effect.toast "Generation failed - please try again" "error"])
  | _, _ => (st, [])

/-- `!this.ws || this.ws.readyState === WebSocket.CLOSED` (app.js 1985). -/
def wsClosedOrNone : Option WsConn → Bool
  | none => true
  | some w =>
      match w.readyState with
      | ReadyState.closed => true
      | _ => false

/-- `checkGenerationHealth()` (app.js 1957-1999), one Health Monitor tick.
`healthOk` is whether `GET /health` succeeded with an ok status; `genResp` is
the `/history/{id}` record (`none` when that fetch failed, landing in the
catch); `failResp` is the result of the `/fail` request, when issued. -/
def checkGenerationHealth (st : AppState) (healthOk : Bool) (genResp : Option Generation)
    (failResp : ReqResult) : AppState × List Effect :=
  match st.currentGenerationId, st.isGenerating with
  | some _, true =>
      if healthOk then
        match genResp with
        | some gen =>
            if gen.status == "processing" && wsClosedOrNone st.ws then
              markGenerationAsFailed st "Connection lost - generation interrupted" failResp
            else
              (st, [])
        | none =>
            if st.isGenerating then
              markGenerationAsFailed st "Server connection lost - generation failed" failResp
            else (st, [])
      else
        if st.isGenerating then
          markGenerationAsFailed st "Server connection lost - generation failed" failResp
        else (st, [])
  | _, _ => (st, [])

-- A concrete session in the middle of streaming, for concrete runs.
def exStreaming : AppState :=
  { currentGenerationId := some "gen1", isGenerating := true, outputBuffer := "",
    tokenCount := 0, statusText := "Generating...", uiGen := none,
    promptInput := "write python", languageBadge := none, filenameText := none,
    ws := some { genId := "gen1", readyState := ReadyState.opened } }

-- A concrete streaming session holding a buffer with no markdown fence.
def exNoFence : AppState :=
  { exStreaming with outputBuffer := "print(1)", tokenCount := 1 }

theorem runMessages_tokens (ts : List String) :
    ∀ st : AppState,
      ((runMessages st (ts.map WsMessage.token)).1).outputBuffer
          = ts.foldl (fun a b => a ++ b) st.outputBuffer ∧
      ((runMessages st (ts.map WsMessage.token)).1).tokenCount
          = st.tokenCount + ts.length := by
  induction ts with
  | nil => intro st; exact ⟨rfl, rfl⟩
  | cons t ts ih =>
      intro st
      have h := ih { st with outputBuffer := st.outputBuffer ++ t,
                             tokenCount := st.tokenCount + 1 }
      simp only [List.map_cons, runMessages, handleWebSocketMessage, List.foldl_cons,
        List.length_cons]
      have h2 := h.2
      simp only [] at h2
      exact ⟨h.1, by rw [h2]; omega⟩

/-- Claim C5: for any sequence of `token` events with payloads `t1..tn` delivered
to a session whose buffer starts empty and token count starts at zero, with no
intervening `progress` event, the resulting `outputBuffer` is the concatenation
of the payloads in arrival order and `tokenCount` equals `n`. -/
theorem claim_C5_buffer_monotonicity (st : AppState) (ts : List String)
    (hbuf : st.outputBuffer = "") (hcnt : st.tokenCount = 0) :
    ((runMessages st (ts.map WsMessage.token)).1).outputBuffer = String.join ts ∧
    ((runMessages st (ts.map WsMessage.token)).1).tokenCount = ts.length := by
  have h := runMessages_tokens ts st
  refine ⟨?_, by rw [h.2, hcnt, Nat.zero_add]⟩
  rw [h.1, hbuf]
  rfl

/-- Witness for C5 at the concrete token sequence `["ab", "c", "d"]`. -/
theorem claim_C5_witness :
    exStreaming.outputBuffer = "" ∧ exStreaming.tokenCount = 0 ∧
    ((runMessages exStreaming (["ab", "c", "d"].map WsMessage.token)).1).outputBuffer
        = String.join ["ab", "c", "d"] ∧
    ((runMessages exStreaming (["ab", "c", "d"].map WsMessage.token)).1).tokenCount
        = (["ab", "c", "d"] : List String).length :=
  ⟨rfl, rfl, (claim_C5_buffer_monotonicity exStreaming ["ab", "c", "d"] rfl rfl).1,
   (claim_C5_buffer_monotonicity exStreaming ["ab", "c", "d"] rfl rfl).2⟩

/-- Claim C7: during streaming, each `token` event appends its payload to the
buffer and increments the count, and the handler persists a snapshot exactly
when the incremented token count is a multiple of 10 (not on every token). -/
theorem claim_C7_snapshot_every_tenth (st : AppState) (data : String) :
    ((handleWebSocketMessage st (WsMessage.token data)).1).outputBuffer
        = st.outputBuffer ++ data ∧
    ((handleWebSocketMessage st (WsMessage.token data)).1).tokenCount
        = st.tokenCount + 1 ∧
    (handleWebSocketMessage st (WsMessage.token data)).2
        = (if (st.tokenCount + 1) % 10 = 0 then [Effect.saveState] else []) :=
  ⟨rfl, rfl, rfl⟩

/-- Claim C9: a `progress` event replaces `tokenCount` with the event's token
value, leaves every other field (in particular `outputBuffer`) exactly
unchanged, and persists no snapshot (empty effect list). -/
theorem claim_C9_progress_frame (st : AppState) (tokens : Nat) :
    handleWebSocketMessage st (WsMessage.progress tokens)
        = ({ st with tokenCount := tokens }, []) ∧
    ((handleWebSocketMessage st (WsMessage.progress tokens)).1).outputBuffer
        = st.outputBuffer :=
  ⟨rfl, rfl⟩

/-- Claim C3: streaming `"```py\nprint(1)"` as a single token and then stopping
transmits the fence-closed output `"```py\nprint(1)\n```"` to the stop request
and leaves the session with status `Stopped`/`stopped`. -/
theorem claim_C3_stop_round_trip :
    ((stopGeneration (handleWebSocketMessage exStreaming
        (WsMessage.token "```py\nprint(1)")).1 false).2).head?
        = some (Effect.requestStop "gen1" "```py\nprint(1)\n```") ∧
    ((stopGeneration (handleWebSocketMessage exStreaming
        (WsMessage.token "```py\nprint(1)")).1 false).1).statusText = "Stopped" ∧
    statusOf ((stopGeneration (handleWebSocketMessage exStreaming
        (WsMessage.token "```py\nprint(1)")).1 false).1) = some "stopped" := by
  decide

theorem fenceOutput_of_unterminated (buf : String) (h1 : buf ≠ "")
    (h2 : jsEndsWith (jsTrim buf) "```" = false) :
    fenceOutput buf = jsTrim buf ++ "\n```" := by
  have hc : (buf != "" && !(jsEndsWith (jsTrim buf) "```")) = true := by
    simp [bne_iff_ne, h1, h2]
  simp [fenceOutput, hc]

theorem stopGeneration_head (st : AppState) (id : String) (threw : Bool)
    (h : st.currentGenerationId = some id) :
    ((stopGeneration st threw).2).head?
        = some (Effect.requestStop id (fenceOutput st.outputBuffer)) := by
  unfold stopGeneration
  rw [h]
  rcases threw
  · rcases hws : st.ws with _ | w <;> simp [hws]
  · simp

/-- Claim C8: the stop fence rule in full — with a non-empty buffer whose
trimmed text does not end in a closing fence, the output transmitted to the
stop request is `trim(buffer) ++ "\n```"` (even when the buffer holds no
opening fence); with an empty buffer the output is transmitted unchanged. -/
theorem claim_C8_fence_rule (st : AppState) (id : String) (threw : Bool)
    (h : st.currentGenerationId = some id) :
    (st.outputBuffer ≠ "" → jsEndsWith (jsTrim st.outputBuffer) "```" = false →
      ((stopGeneration st threw).2).head?
          = some (Effect.requestStop id (jsTrim st.outputBuffer ++ "\n```"))) ∧
    (st.outputBuffer = "" →
      ((stopGeneration st threw).2).head?
          = some (Effect.requestStop id st.outputBuffer)) := by
  constructor
  · intro h1 h2
    rw [stopGeneration_head st id threw h, fenceOutput_of_unterminated _ h1 h2]
  · intro h1
    rw [stopGeneration_head st id threw h, h1]
    rfl

-- The session right after a `done` event: status completed, no longer generating.
def exCompleted : AppState :=
  (handleWebSocketMessage exStreaming (WsMessage.done (some "python") (some "main.py"))).1

-- A streaming session whose WebSocket has closed under it.
def exStuck : AppState :=
  { exStreaming with
    outputBuffer := "partial out",
    tokenCount := 3,
    ws := some { genId := "gen1", readyState := ReadyState.closed } }

-- A server record still reporting the job as processing.
def procGen : Generation :=
  { id := some "gen1", status := "processing" }

/-- Counterexample to claim C1: after the session reached `Completed` via a
`done` event, a later-arriving `error` event from the (stale) Channel changes
the status to `failed` — `handleGenerationError` has no terminal-state guard. -/
theorem claim_C1_counterexample :
    statusOf exCompleted = some "completed" ∧
    statusOf (handleWebSocketMessage exCompleted
        (WsMessage.error "stale channel failure")).1 = some "failed" := by
  decide

/-- Claim C1 (amended): once the session has left the generating state (as in
every terminal state), a health-probe-triggered failure whose entry guard runs
afterwards leaves the state completely unchanged; a late-arriving `error` event
from a stale Channel, however, is handled unconditionally and always sets the
status to `failed`. -/
theorem claim_C1_amended_stickiness (st : AppState) (msg : String) (r : ReqResult)
    (h : st.isGenerating = false) :
    markGenerationAsFailed st msg r = (st, []) ∧
    statusOf (handleWebSocketMessage st (WsMessage.error msg)).1 = some "failed" := by
  refine ⟨?_, rfl⟩
  obtain ⟨cgi, ig, ob, tc, stx, ug, pi, lb, fnm, ws⟩ := st
  simp only [] at h
  subst h
  cases cgi <;> rfl

/-- Witness for the amended C1 at the concrete completed session. -/
theorem claim_C1_amended_witness :
    exCompleted.isGenerating = false ∧
    (markGenerationAsFailed exCompleted "late failure" ReqResult.ok = (exCompleted, []) ∧
     statusOf (handleWebSocketMessage exCompleted (WsMessage.error "late failure")).1
         = some "failed") :=
  ⟨rfl, claim_C1_amended_stickiness exCompleted "late failure" ReqResult.ok rfl⟩

/-- Counterexample to claim C2: for a streaming session whose WebSocket is
closed while the server still reports `processing`, the health-check tick marks
the session `failed` and opens no Channel — it does not reconnect. -/
theorem claim_C2_counterexample :
    statusOf (checkGenerationHealth exStuck true (some procGen) ReqResult.ok).1
        = some "failed" ∧
    (checkGenerationHealth exStuck true (some procGen) ReqResult.ok).1.isGenerating
        = false ∧
    opensChannel (checkGenerationHealth exStuck true (some procGen) ReqResult.ok).2
        = false := by
  decide

/-- Claim C2 (amended): for every session in `Streaming` whose Channel is closed
while the server-side job still reports `processing`, the next Health Monitor
tick reports a "Connection lost" failure with the buffered partial output and
forces the session to `failed`; it never reopens a Channel (reconnection only
happens on the visibility-change path). -/
theorem claim_C2_amended_failfast (st : AppState) (id : String) (gen : Generation)
    (h1 : st.currentGenerationId = some id) (h2 : st.isGenerating = true)
    (h3 : wsClosedOrNone st.ws = true) (h4 : gen.status = "processing") :
    statusOf (checkGenerationHealth st true (some gen) ReqResult.ok).1 = some "failed" ∧
    (checkGenerationHealth st true (some gen) ReqResult.ok).1.isGenerating = false ∧
    opensChannel (checkGenerationHealth st true (some gen) ReqResult.ok).2 = false ∧
    Effect.reportFailure id "Connection lost - generation interrupted" st.outputBuffer
        ∈ (checkGenerationHealth st true (some gen) ReqResult.ok).2 := by
  obtain ⟨cgi, ig, ob, tc, stx, ug, pi, lb, fnm, ws⟩ := st
  simp only [] at h1 h2 h3 ⊢
  subst h1
  subst h2
  simp [checkGenerationHealth, h3, h4, markGenerationAsFailed, displayGeneration,
    updateUIState, statusOf, opensChannel, setGeneratingState]

/-- Witness for the amended C2 at the concrete stuck session. -/
theorem claim_C2_amended_witness :
    exStuck.currentGenerationId = some "gen1" ∧ exStuck.isGenerating = true ∧
    wsClosedOrNone exStuck.ws = true ∧ procGen.status = "processing" ∧
    (statusOf (checkGenerationHealth exStuck true (some procGen) ReqResult.ok).1
         = some "failed" ∧
     (checkGenerationHealth exStuck true (some procGen) ReqResult.ok).1.isGenerating
         = false ∧
     opensChannel (checkGenerationHealth exStuck true (some procGen) ReqResult.ok).2
         = false ∧
     Effect.reportFailure "gen1" "Connection lost - generation interrupted"
         exStuck.outputBuffer
         ∈ (checkGenerationHealth exStuck true (some procGen) ReqResult.ok).2) :=
  ⟨rfl, rfl, rfl, rfl, claim_C2_amended_failfast exStuck "gen1" procGen rfl rfl rfl rfl⟩

/-- Claim C4: a persisted snapshot strictly older than 24 hours at restore time
is never restored — the state is left exactly as when no snapshot exists, and
the stale record is cleared from storage. -/
theorem claim_C4_snapshot_staleness (st : AppState) (s : SavedState) (now : Nat)
    (resp : HistoryResp) (h : 24 * 60 * 60 * 1000 < now - s.timestamp) :
    loadLastGeneration st (some s) now resp = (st, [Effect.clearState]) ∧
    (loadLastGeneration st (some s) now resp).1
        = (loadLastGeneration st none now resp).1 := by
  have hr : decide (now - s.timestamp < 24 * 60 * 60 * 1000) = false := by
    simp only [decide_eq_false_iff_not, not_lt]
    omega
  constructor
  · simp [loadLastGeneration, hr]
  · simp [loadLastGeneration, hr]

-- A mid-stream snapshot, 0-stamped, used as a stale record.
def exSaved : SavedState :=
  { generationId := some "gen1", prompt := "write python", outputBuffer := "print(1)",
    tokenCount := 1, isGenerating := true, timestamp := 0 }

/-- Witness for C4: a snapshot stamped at 0, restored at 24h + 1ms, is discarded. -/
theorem claim_C4_witness :
    24 * 60 * 60 * 1000 < 86400001 - exSaved.timestamp ∧
    loadLastGeneration exStreaming (some exSaved) 86400001 HistoryResp.notFound
        = (exStreaming, [Effect.clearState]) :=
  ⟨by decide,
   (claim_C4_snapshot_staleness exStreaming exSaved 86400001 HistoryResp.notFound
     (by decide)).1⟩

/-- Claim C6: a start request with an empty (or whitespace-only) prompt, or
with no usable model selected, is rejected with a validation toast and changes
nothing: the state is returned untouched and no job-creation, channel-open or
snapshot-write effect is emitted. -/
theorem claim_C6_validation (st : AppState) (selectedModel : Option String)
    (createResp : Option String)
    (h : jsTrim st.promptInput = "" ∨ modelInvalid (getCurrentModel selectedModel) = true) :
    (startGeneration st selectedModel createResp).1 = st ∧
    ((startGeneration st selectedModel createResp).2.2
        = StartOutcome.validationEmptyPrompt ∨
     (startGeneration st selectedModel createResp).2.2
        = StartOutcome.validationNoModel) ∧
    (∀ e ∈ (startGeneration st selectedModel createResp).2.1,
       (∀ p, e ≠ Effect.createJob p) ∧ (∀ i, e ≠ Effect.openChannel i) ∧
       e ≠ Effect.saveState) := by
  by_cases hp : jsTrim st.promptInput = ""
  · simp [startGeneration, hp]
  · rcases h with h | h
    · exact absurd h hp
    · simp [startGeneration, hp, h]

-- An idle session with a whitespace-only prompt.
def exIdle : AppState :=
  { currentGenerationId := none, isGenerating := false, outputBuffer := "",
    tokenCount := 0, statusText := "Ready", uiGen := none, promptInput := "   ",
    languageBadge := none, filenameText := none, ws := none }

/-- Witness for C6 at a whitespace-only prompt. -/
theorem claim_C6_witness :
    (jsTrim exIdle.promptInput = "" ∨ modelInvalid (getCurrentModel none) = true) ∧
    (startGeneration exIdle none none).1 = exIdle ∧
    ((startGeneration exIdle none none).2.2 = StartOutcome.validationEmptyPrompt ∨
     (startGeneration exIdle none none).2.2 = StartOutcome.validationNoModel) :=
  ⟨Or.inl (by decide), (claim_C6_validation exIdle none none (Or.inl (by decide))).1,
   (claim_C6_validation exIdle none none (Or.inl (by decide))).2.1⟩

theorem loadGeneration_isGenerating (st : AppState) (id : String) (resp : HistoryResp) :
    (loadGeneration st id resp).1.isGenerating = st.isGenerating := by
  cases resp <;> rfl

theorem opensChannel_loadGeneration (st : AppState) (id : String) (resp : HistoryResp) :
    opensChannel (loadGeneration st id resp).2 = false := by
  cases resp <;> rfl

theorem loadLastGeneration_isGenerating (st : AppState) (saved : Option SavedState)
    (now : Nat) (resp : HistoryResp) :
    (loadLastGeneration st saved now resp).1.isGenerating = st.isGenerating := by
  cases saved with
  | none => rfl
  | some s =>
      simp only [loadLastGeneration]
      split
      · exact loadGeneration_isGenerating st _ resp
      · split
        · rfl
        · split
          · rfl
          · rfl

theorem opensChannel_loadLastGeneration (st : AppState) (saved : Option SavedState)
    (now : Nat) (resp : HistoryResp) :
    opensChannel (loadLastGeneration st saved now resp).2 = false := by
  cases saved with
  | none => rfl
  | some s =>
      simp only [loadLastGeneration]
      split
      · exact opensChannel_loadGeneration st _ resp
      · split
        · rfl
        · split
          · rfl
          · rfl

/-- Claim C10: restore never resumes streaming — the `isGenerating` flag stored
in a snapshot is never read back (restoring a snapshot with the flag forced to
any value behaves identically), and after a restore from any snapshot the
controller is still not generating and no Channel has been opened by the
restore itself. -/
theorem claim_C10_restore_not_streaming (st : AppState) (s : SavedState) (b : Bool)
    (now : Nat) (resp : HistoryResp) :
    loadLastGeneration st (some { s with isGenerating := b }) now resp
        = loadLastGeneration st (some s) now resp ∧
    (st.isGenerating = false →
      ((loadLastGeneration st (some s) now resp).1.isGenerating = false ∧
       opensChannel (loadLastGeneration st (some s) now resp).2 = false)) := by
  obtain ⟨gid, pr, ob, tc, ig, ts⟩ := s
  refine ⟨rfl, fun h => ⟨?_, opensChannel_loadLastGeneration st _ now resp⟩⟩
  rw [loadLastGeneration_isGenerating]
  exact h

/-- Witness for C10: restoring a snapshot taken mid-stream (with
`isGenerating = true`) still leaves the controller idle, with no Channel opened. -/
theorem claim_C10_witness :
    exIdle.isGenerating = false ∧
    ((loadLastGeneration exIdle (some (saveLastGeneration exStreaming 5)) 6
        (HistoryResp.found procGen)).1.isGenerating = false ∧
     opensChannel (loadLastGeneration exIdle (some (saveLastGeneration exStreaming 5)) 6
        (HistoryResp.found procGen)).2 = false) :=
  ⟨rfl, (claim_C10_restore_not_streaming exIdle (saveLastGeneration exStreaming 5) true 6
     (HistoryResp.found procGen)).2 rfl⟩

/-- Witness for C8 at a concrete fence-less buffer `"print(1)"`. -/
theorem claim_C8_witness :
    exNoFence.currentGenerationId = some "gen1" ∧
    exNoFence.outputBuffer ≠ "" ∧
    jsEndsWith (jsTrim exNoFence.outputBuffer) "```" = false ∧
    ((stopGeneration exNoFence false).2).head?
        = some (Effect.requestStop "gen1" (jsTrim exNoFence.outputBuffer ++ "\n```")) :=
  ⟨rfl, by decide, by decide,
   (claim_C8_fence_rule exNoFence "gen1" false rfl).1 (by decide) (by decide)⟩
